import Mathlib

/-!
Shallow embedding of `src/gps_logger.py` (PiTrac GPS logger): the NMEA
sentence decoder / per-window fix aggregator `parse_gps`, the EventRecord
builder `create_aff_feature`, and the motion-event state machine that lives
in the `__main__` polling loop.

Python floats are modelled as exact rationals (ℚ); Python `round(x, 1)` is
modelled as round-half-to-even on the rational, `int(x)` as truncation
toward zero.  Exceptions raised inside the per-line `try` block are
modelled explicitly: each fallible operation either returns its value or
yields the state accumulated up to the raise point, which the enclosing
handler keeps (`except Exception: continue`).

The external library `pynmea2` is modelled as an oracle: each raw line is
paired with the parse result (`none` when `pynmea2.parse` raises, otherwise
a message value carrying the typed fields the logger reads).  Property
access on a successfully parsed message is modelled as total; the rare
pynmea2-internal raise on garbled coordinate text inside a successfully
parsed sentence is not modelled (no claim depends on it).
-/

/-- Round-half-to-even on ℚ, modelling Python `round` to the nearest
integer. -/
def pyRoundInt (q : ℚ) : ℤ :=
  if q - ⌊q⌋ < 1/2 then ⌊q⌋
  else if (1 : ℚ)/2 < q - ⌊q⌋ then ⌊q⌋ + 1
  else if ⌊q⌋ % 2 = 0 then ⌊q⌋ else ⌊q⌋ + 1

/-- Python `round(x, 1)`: round to one decimal place. -/
def round1 (q : ℚ) : ℚ := (pyRoundInt (q * 10) : ℚ) / 10

/-- Python `int(x)` on a float: truncation toward zero. -/
def pyTrunc (q : ℚ) : ℤ := if 0 ≤ q then ⌊q⌋ else ⌈q⌉

/-- Python truthiness of an optional float: `None` and `0.0` are falsy. -/
def pyTruthy : Option ℚ → Bool
  | none => false
  | some q => q != 0

/-- The conversion factor 0.514444 from `gps_logger.py` line 75
(knots to metres per second). -/
def knotToMs : ℚ := 514444 / 1000000

/-- Python `line.split(',')`, worker over the character list. -/
def splitCommaAux : List Char → List Char → List String
  | [], acc => [String.mk acc.reverse]
  | c :: rest, acc =>
      if c = ',' then String.mk acc.reverse :: splitCommaAux rest []
      else splitCommaAux rest (c :: acc)

/-- Python `line.split(',')`. -/
def splitComma (s : String) : List String := splitCommaAux s.data []

/-- Does the second list begin with the first (the first list is the
pattern)? -/
def beginsWith : List Char → List Char → Bool
  | [], _ => true
  | _ :: _, [] => false
  | a :: as, b :: bs => a = b && beginsWith as bs

/-- Worker for substring containment. -/
def hasSubAux (pat : List Char) : List Char → Bool
  | [] => beginsWith pat []
  | c :: rest => beginsWith pat (c :: rest) || hasSubAux pat rest

/-- Python `pat in line` on strings: substring containment. -/
def hasSub (pat line : String) : Bool := hasSubAux pat.data line.data

/-- Python `line.startswith(p)`. -/
def strStarts (line p : String) : Bool := beginsWith p.data line.data

/-- Worker: read a nonempty all-digit list as a natural number. -/
def parseDigitsAux : List Char → ℕ → Option ℕ
  | [], acc => some acc
  | c :: cs, acc =>
      if c.isDigit then parseDigitsAux cs (10 * acc + (c.toNat - 48)) else none

/-- Read a nonempty all-digit list as a natural number. -/
def parseDigits (l : List Char) : Option ℕ :=
  match l with
  | [] => none
  | _ => parseDigitsAux l 0

/-- Model of Python `int(s)` on plain decimal strings (optional sign;
whitespace tolerance not modelled). `none` models a raised `ValueError`. -/
def parseInt (s : String) : Option ℤ :=
  match s.data with
  | '-' :: l => (parseDigits l).map (fun n => -(n : ℤ))
  | '+' :: l => (parseDigits l).map (fun n => (n : ℤ))
  | l => (parseDigits l).map (fun n => (n : ℤ))

/-- Split a character list at the first dot, if any. -/
def splitDot : List Char → List Char × Option (List Char)
  | [] => ([], none)
  | c :: rest =>
      if c = '.' then ([], some rest)
      else
        let p := splitDot rest
        (c :: p.1, p.2)

/-- Unsigned part of a Python float literal: digits, optionally with one
dot; at least one digit overall. -/
def parseUF (l : List Char) : Option ℚ :=
  match splitDot l with
  | (ip, none) => (parseDigits ip).map (fun n => (n : ℚ))
  | (ip, some fp) =>
      if ip = [] ∧ fp = [] then none
      else
        let ipv : Option ℕ := if ip = [] then some 0 else parseDigits ip
        let fpv : Option (ℕ × ℕ) :=
          if fp = [] then some (0, 0)
          else (parseDigits fp).map (fun n => (n, fp.length))
        match ipv, fpv with
        | some i, some fk => some ((i : ℚ) + (fk.1 : ℚ) / (10 ^ fk.2 : ℚ))
        | _, _ => none

/-- Model of Python `float(s)` on plain decimal literals (optional sign,
optional dot; exponents, `inf`, `nan` and whitespace tolerance not
modelled). `none` models a raised `ValueError`. -/
def parseFloat (s : String) : Option ℚ :=
  match s.data with
  | '-' :: l => (parseUF l).map (fun q => -q)
  | '+' :: l => parseUF l
  | l => parseUF l

/-- The `gps_data` dictionary of `parse_gps` (gps_logger.py lines 34-46):
the ConsolidatedFix built over one sampling window. -/
structure GpsData where
  timestamp : String
  posTime : Option String
  lat : Option ℚ
  lon : Option ℚ
  alt : Option ℚ
  course : ℚ
  speed_m_s : ℚ
  pdop : Option ℚ
  fix_type : String
  valid : Bool
  sats : Option ℤ
deriving DecidableEq, Repr

/-- Initial `gps_data` value (gps_logger.py lines 34-46); `ts` is the
wall-clock capture timestamp taken at window entry. -/
def initGpsData (ts : String) : GpsData :=
  { timestamp := ts, posTime := none, lat := none, lon := none, alt := none,
    course := 0, speed_m_s := 0, pdop := none, fix_type := "Invalid",
    valid := false, sats := none }

/-- Oracle model of a successful `pynmea2.parse` result, carrying exactly
the fields `parse_gps` reads.  For `rmc`: `status` is the raw status
string; `latitude`/`longitude` model the float properties (0.0 when the
field is empty); `true_course`/`spd_over_grnd` are `none` when the raw
field is empty; `datestamp`/`timestampF` are the `strftime`-formatted date
and time, `none` when the raw field is empty (so that `strftime` raises).
For `gga`: `altitude` is `none` when empty, `num_sats` is the raw string.
`other` covers every other sentence type. -/
inductive PyNmeaMsg where
  | rmc (status : String) (latitude longitude : ℚ)
      (true_course spd_over_grnd : Option ℚ)
      (datestamp timestampF : Option String)
  | gga (altitude : Option ℚ) (num_sats : String)
  | other
deriving DecidableEq, Repr

/-- Second half of the GSA branch (gps_logger.py lines 59-63): read field 2
and set the fix type for '2'/'3', otherwise leave it. -/
def gsaFix (g : GpsData) (line : String) : GpsData :=
  if (splitComma line).getD 2 "" = "2" then { g with fix_type := "2D" }
  else if (splitComma line).getD 2 "" = "3" then { g with fix_type := "3D" }
  else g

/-- The GSA branch (gps_logger.py lines 55-63).  `Except.error g` models
`float(parts[15])` raising (state unchanged, rest of the line skipped by
the handler); `Except.ok` carries the state after the branch. -/
def gsaStage (g : GpsData) (line : String) : Except GpsData GpsData :=
  if hasSub "GSA" line = true then
    if 16 ≤ (splitComma line).length then
      if (splitComma line).getD 15 "" = "" then
        Except.ok (gsaFix { g with pdop := none } line)
      else
        match parseFloat ((splitComma line).getD 15 "") with
        | some v => Except.ok (gsaFix { g with pdop := some v } line)
        | none => Except.error g
    else Except.ok g
  else Except.ok g

/-- `gsaRaises line` is true exactly when the GSA branch raises on `line`
(non-empty, non-numeric field 15 of a 16+-field GSA-marked line). -/
def gsaRaises (line : String) : Bool :=
  hasSub "GSA" line && decide (16 ≤ (splitComma line).length) &&
    decide ((splitComma line).getD 15 "" ≠ "") &&
    decide (parseFloat ((splitComma line).getD 15 "") = none)

/-- RMC line 68-69: status 'A' sets the validity flag; nothing clears it. -/
def rmcValidUpd (g : GpsData) (status : String) : GpsData :=
  if status = "A" then { g with valid := true } else g

/-- RMC lines 70-72: store coordinates only when both are truthy
(non-zero). -/
def rmcCoordUpd (g : GpsData) (la lo : ℚ) : GpsData :=
  if la ≠ 0 ∧ lo ≠ 0 then { g with lat := some la, lon := some lo } else g

/-- RMC line 73: course, zero-defaulted when the field is falsy. -/
def rmcCourseUpd (g : GpsData) (tc : Option ℚ) : GpsData :=
  { g with course := if pyTruthy tc then round1 (tc.getD 0) else 0 }

/-- RMC lines 74-75: speed in m/s, zero-defaulted knots when falsy. -/
def rmcSpeedUpd (g : GpsData) (sog : Option ℚ) : GpsData :=
  { g with speed_m_s :=
      round1 ((if pyTruthy sog then sog.getD 0 else 0) * knotToMs) }

/-- RMC line 76: position time; `strftime` on a `None` date or time raises
(modelled by leaving `posTime` unchanged — the handler keeps the earlier
updates). -/
def rmcTimeUpd (g : GpsData) (ds ts : Option String) : GpsData :=
  match ds, ts with
  | some d, some t => { g with posTime := some (d ++ "T" ++ t ++ "Z") }
  | _, _ => g

/-- The whole RMC branch (gps_logger.py lines 67-76), statements in source
order. -/
def rmcUpdate (g : GpsData) (status : String) (la lo : ℚ)
    (tc sog : Option ℚ) (ds ts : Option String) : GpsData :=
  rmcTimeUpd (rmcSpeedUpd (rmcCourseUpd (rmcCoordUpd (rmcValidUpd g status) la lo) tc) sog) ds ts

/-- GGA line 79: altitude, zero-defaulted when falsy. -/
def ggaAltUpd (g : GpsData) (alt? : Option ℚ) : GpsData :=
  { g with alt := some (if pyTruthy alt? then alt?.getD 0 else 0) }

/-- GGA line 80: satellite count; empty string stores `none`, a
non-integer string raises (state from the altitude update kept). -/
def ggaSatsUpd (g : GpsData) (ns : String) : GpsData :=
  if ns = "" then { g with sats := none }
  else
    match parseInt ns with
    | some n => { g with sats := some n }
    | none => g

/-- The whole GGA branch (gps_logger.py lines 78-80). -/
def ggaUpdate (g : GpsData) (alt? : Option ℚ) (ns : String) : GpsData :=
  ggaSatsUpd (ggaAltUpd g alt?) ns

/-- Dispatch on the parsed message type (gps_logger.py lines 67-80). -/
def msgUpdate (g : GpsData) (m : PyNmeaMsg) : GpsData :=
  match m with
  | .rmc s la lo tc sog ds ts => rmcUpdate g s la lo tc sog ds ts
  | .gga alt? ns => ggaUpdate g alt? ns
  | .other => g

/-- One iteration of the `parse_gps` read loop (gps_logger.py lines
50-83) on a line and its `pynmea2.parse` result (`none` = parse raised).
Every raise inside the body is caught by the `except` and leaves the state
accumulated so far. -/
def processLine (g : GpsData) (line : String) (parsed : Option PyNmeaMsg) : GpsData :=
  if strStarts line "$" = true then
    match gsaStage g line with
    | Except.error g1 => g1
    | Except.ok g1 =>
        match parsed with
        | none => g1
        | some m => msgUpdate g1 m
  else g

/-- `parse_gps` (gps_logger.py lines 33-85): fold the per-line step over
the sequence of lines read during the 5-second window, starting from the
fresh `gps_data` stamped with the capture time `ts`. -/
def parse_gps (ts : String) (lines : List (String × Option PyNmeaMsg)) : GpsData :=
  lines.foldl (fun g lp => processLine g lp.1 lp.2) (initGpsData ts)

/-- `EVENT_CODES` (gps_logger.py lines 15-21). -/
def EVENT_CODES : List (String × ℕ) :=
  [("Position Report", 0), ("POWER ON", 1), ("POWER OFF", 2),
   ("MOVING", 3), ("STOPPED", 4)]

/-- The motion state owned by the `__main__` loop (gps_logger.py lines
132-134): `prev_speed`, `power_on_logged`, `in_motion`. -/
structure MotionState where
  prev_speed : ℚ
  power_on_logged : Bool
  in_motion : Bool
deriving DecidableEq, Repr

/-- Initial motion state (gps_logger.py lines 132-134). -/
def initMotion : MotionState := ⟨0, false, false⟩

/-- The guard of the event branch (gps_logger.py line 140): Python
truthiness of `gps['valid'] and gps['lat'] and gps['lon']` — a stored
coordinate equal to 0.0 is falsy. -/
def fixOk (g : GpsData) : Bool := g.valid && pyTruthy g.lat && pyTruthy g.lon

/-- Event classification and flag updates (gps_logger.py lines 141-153),
before `prev_speed` is refreshed. -/
def eventChoice (st : MotionState) (g : GpsData) : String × MotionState :=
  if st.power_on_logged = false then
    ("POWER ON",
      { st with power_on_logged := true, in_motion := decide (0 < g.speed_m_s) })
  else if st.in_motion = false ∧ 0 < g.speed_m_s then
    ("MOVING", { st with in_motion := true })
  else if st.in_motion = true ∧ g.speed_m_s = 0 then
    ("STOPPED", { st with in_motion := false })
  else
    ("Position Report", st)

/-- One cycle of the `__main__` event logic (gps_logger.py lines 140-165)
as a pure transition: on a truthy valid/lat/lon fix, emit the classified
event with its code from `EVENT_CODES` and update the flags and
`prev_speed`; otherwise emit nothing ("No fix" logged) and leave the
state untouched. -/
def eventStep (st : MotionState) (g : GpsData) : Option (String × Option ℕ) × MotionState :=
  if fixOk g = true then
    (some ((eventChoice st g).1, EVENT_CODES.lookup (eventChoice st g).1),
      { (eventChoice st g).2 with prev_speed := g.speed_m_s })
  else (none, st)

/-- Iterate `eventStep` over a sequence of consolidated fixes, collecting
the per-cycle emissions. -/
def runEvents (st : MotionState) (fixes : List GpsData) :
    List (Option (String × Option ℕ)) × MotionState :=
  match fixes with
  | [] => ([], st)
  | g :: rest =>
      let p := eventStep st g
      let q := runEvents p.2 rest
      (p.1 :: q.1, q.2)

/-- The `properties` object of `create_aff_feature` (gps_logger.py lines
90-105). -/
structure AffProperties where
  rpt : String
  esn : String
  unitId : String
  cog : ℤ
  spd : ℤ
  srcName : String
  fix : String
  pdop : Option ℚ
  posTime : Option String
  dataCtrTime : String
  ctrId : String
  event_code : Option ℕ
  event_type : String
  extra_data : String
deriving DecidableEq, Repr

/-- The GeoJSON feature returned by `create_aff_feature` (gps_logger.py
lines 88-110); `coordinates` is the `[lon, lat, alt]` triple in source
order. -/
structure AffFeature where
  featureType : String
  properties : AffProperties
  geometryType : String
  coordinates : Option ℚ × Option ℚ × Option ℚ
deriving DecidableEq, Repr

/-- `create_aff_feature` (gps_logger.py lines 87-110). -/
def create_aff_feature (gps : GpsData) (imei : String) (event_code : Option ℕ)
    (event_type : String) (extra_data : String) : AffFeature :=
  { featureType := "Feature",
    properties :=
      { rpt := "pos", esn := imei, unitId := "SKYTRAC_UNIT",
        cog := pyTrunc gps.course, spd := pyTrunc gps.speed_m_s,
        srcName := "GPS", fix := gps.fix_type, pdop := gps.pdop,
        posTime := gps.posTime, dataCtrTime := gps.timestamp,
        ctrId := "skytrac-pi", event_code := event_code,
        event_type := event_type, extra_data := extra_data },
    geometryType := "Point",
    coordinates := (gps.lon, gps.lat, gps.alt) }

/-- A line/parse pair sets the validity flag exactly when it starts with
the sentinel, its GSA branch does not raise, and it parsed as an RMC with
status 'A'. -/
def setsValid (line : String) (p : Option PyNmeaMsg) : Bool :=
  strStarts line "$" && !(gsaRaises line) &&
    (match p with
     | some (.rmc s _ _ _ _ _ _) => decide (s = "A")
     | _ => false)

/-- Coordinate coherence of a ConsolidatedFix: latitude and longitude are
both absent, or both present and non-zero. -/
def coordOk (g : GpsData) : Prop :=
  (g.lat = none ∧ g.lon = none) ∨
    (∃ a b, g.lat = some a ∧ g.lon = some b ∧ a ≠ 0 ∧ b ≠ 0)

/-- A valid, geolocated fix with the given speed, used for concrete state
machine runs. -/
def exFix (sp : ℚ) : GpsData :=
  { initGpsData "T" with
    valid := true, lat := some 1, lon := some 1, speed_m_s := sp }

/-- The fix-type half of the GSA branch only rewrites `fix_type`. -/
theorem gsaFix_eq (g : GpsData) (l : String) :
    ∃ ft, gsaFix g l = { g with fix_type := ft } := by
  unfold gsaFix
  split
  · exact ⟨_, rfl⟩
  · split
    · exact ⟨_, rfl⟩
    · exact ⟨g.fix_type, rfl⟩

/-- The GSA branch either raises with the state unchanged or returns the
state with only `pdop` and `fix_type` possibly rewritten. -/
theorem gsaStage_shape (g : GpsData) (l : String) :
    gsaStage g l = Except.error g ∨
      ∃ pd ft, gsaStage g l = Except.ok { g with pdop := pd, fix_type := ft } := by
  unfold gsaStage
  split
  · split
    · split
      · obtain ⟨ft, hft⟩ := gsaFix_eq { g with pdop := none } l
        right; exact ⟨none, ft, by rw [hft]⟩
      · split
        · next v _ =>
            obtain ⟨ft, hft⟩ := gsaFix_eq { g with pdop := some v } l
            right; exact ⟨some v, ft, by rw [hft]⟩
        · left; rfl
    · right; exact ⟨g.pdop, g.fix_type, rfl⟩
  · right; exact ⟨g.pdop, g.fix_type, rfl⟩

/-- A non-empty, non-numeric field 15 of a 16+-field GSA-marked line makes
the GSA branch raise before mutating anything. -/
theorem gsaStage_raise (g : GpsData) (l : String)
    (h1 : hasSub "GSA" l = true) (h2 : 16 ≤ (splitComma l).length)
    (h3 : (splitComma l).getD 15 "" ≠ "")
    (h4 : parseFloat ((splitComma l).getD 15 "") = none) :
    gsaStage g l = Except.error g := by
  unfold gsaStage
  rw [if_pos h1, if_pos h2, if_neg h3, h4]

/-- Lines without the GSA marker leave the GSA branch inert. -/
theorem gsaStage_not_gsa (g : GpsData) (l : String)
    (h : hasSub "GSA" l = false) : gsaStage g l = Except.ok g := by
  unfold gsaStage
  rw [if_neg (by simp [h])]

/-- A GSA-marked line with fewer than 16 comma fields leaves the GSA
branch inert. -/
theorem gsaStage_short (g : GpsData) (l : String)
    (h : ¬ 16 ≤ (splitComma l).length) : gsaStage g l = Except.ok g := by
  simp [gsaStage, h]

/-- If the GSA branch raised, the raise condition `gsaRaises` holds. -/
theorem gsaRaises_of_error {g g' : GpsData} {l : String}
    (h : gsaStage g l = Except.error g') : gsaRaises l = true := by
  unfold gsaStage at h
  unfold gsaRaises
  split at h
  next h1 =>
    split at h
    next h2 =>
      split at h
      next h3 => exact absurd h (by simp)
      next h3 =>
        rcases hw : parseFloat ((splitComma l).getD 15 "") with _ | v
        · simp only [Bool.and_eq_true, decide_eq_true_eq]
          exact ⟨⟨⟨h1, h2⟩, h3⟩, trivial⟩
        · rw [hw] at h
          exact absurd h (by simp)
    next h2 => exact absurd h (by simp)
  next h1 => exact absurd h (by simp)

/-- If the GSA branch returned normally, the raise condition fails. -/
theorem gsaRaises_of_ok {g g' : GpsData} {l : String}
    (h : gsaStage g l = Except.ok g') : gsaRaises l = false := by
  unfold gsaStage at h
  rw [Bool.eq_false_iff]
  intro hX
  unfold gsaRaises at hX
  simp only [Bool.and_eq_true, decide_eq_true_eq] at hX
  obtain ⟨⟨⟨hA, hB⟩, hC⟩, hD⟩ := hX
  rw [if_pos hA, if_pos hB, if_neg hC, hD] at h
  exact absurd h (by simp)

/-- Effect of the RMC branch on the validity flag: it latches on status
'A' and is otherwise preserved. -/
theorem rmcUpdate_valid (g : GpsData) (s : String) (la lo : ℚ)
    (tc sog : Option ℚ) (ds ts : Option String) :
    (rmcUpdate g s la lo tc sog ds ts).valid = (g.valid || decide (s = "A")) := by
  unfold rmcUpdate rmcTimeUpd rmcSpeedUpd rmcCourseUpd rmcCoordUpd rmcValidUpd
  split <;> split <;> split <;> simp_all

/-- Effect of the RMC branch on the stored latitude. -/
theorem rmcUpdate_lat (g : GpsData) (s : String) (la lo : ℚ)
    (tc sog : Option ℚ) (ds ts : Option String) :
    (rmcUpdate g s la lo tc sog ds ts).lat =
      (if la ≠ 0 ∧ lo ≠ 0 then some la else g.lat) := by
  unfold rmcUpdate rmcTimeUpd rmcSpeedUpd rmcCourseUpd rmcCoordUpd rmcValidUpd
  split <;> split <;> split <;> simp_all

/-- Effect of the RMC branch on the stored longitude. -/
theorem rmcUpdate_lon (g : GpsData) (s : String) (la lo : ℚ)
    (tc sog : Option ℚ) (ds ts : Option String) :
    (rmcUpdate g s la lo tc sog ds ts).lon =
      (if la ≠ 0 ∧ lo ≠ 0 then some lo else g.lon) := by
  unfold rmcUpdate rmcTimeUpd rmcSpeedUpd rmcCourseUpd rmcCoordUpd rmcValidUpd
  split <;> split <;> split <;> simp_all

/-- Effect of the RMC branch on the course: rewritten from the message
alone, regardless of the prior value. -/
theorem rmcUpdate_course (g : GpsData) (s : String) (la lo : ℚ)
    (tc sog : Option ℚ) (ds ts : Option String) :
    (rmcUpdate g s la lo tc sog ds ts).course =
      (if pyTruthy tc then round1 (tc.getD 0) else 0) := by
  unfold rmcUpdate rmcTimeUpd rmcSpeedUpd rmcCourseUpd rmcCoordUpd rmcValidUpd
  split <;> split <;> split <;> simp_all

/-- Effect of the RMC branch on the speed: rewritten from the message
alone, regardless of the prior value. -/
theorem rmcUpdate_speed (g : GpsData) (s : String) (la lo : ℚ)
    (tc sog : Option ℚ) (ds ts : Option String) :
    (rmcUpdate g s la lo tc sog ds ts).speed_m_s =
      round1 ((if pyTruthy sog then sog.getD 0 else 0) * knotToMs) := by
  unfold rmcUpdate rmcTimeUpd rmcSpeedUpd rmcCourseUpd rmcCoordUpd rmcValidUpd
  split <;> split <;> split <;> simp_all

/-- The RMC branch never touches the DOP fields. -/
theorem rmcUpdate_pdop_fix (g : GpsData) (s : String) (la lo : ℚ)
    (tc sog : Option ℚ) (ds ts : Option String) :
    (rmcUpdate g s la lo tc sog ds ts).pdop = g.pdop ∧
      (rmcUpdate g s la lo tc sog ds ts).fix_type = g.fix_type := by
  unfold rmcUpdate rmcTimeUpd rmcSpeedUpd rmcCourseUpd rmcCoordUpd rmcValidUpd
  split <;> split <;> split <;> simp_all

/-- Dispatching any parsed message never touches the DOP fields. -/
theorem msgUpdate_pdop_fix (g : GpsData) (m : PyNmeaMsg) :
    (msgUpdate g m).pdop = g.pdop ∧ (msgUpdate g m).fix_type = g.fix_type := by
  cases m with
  | rmc s la lo tc sog ds ts => exact rmcUpdate_pdop_fix g s la lo tc sog ds ts
  | gga alt? ns =>
      simp only [msgUpdate, ggaUpdate, ggaSatsUpd, ggaAltUpd]
      split
      · exact ⟨rfl, rfl⟩
      · split <;> exact ⟨rfl, rfl⟩
  | other => exact ⟨rfl, rfl⟩

/-- Dispatching any parsed message preserves the latch: a set validity
flag stays set, and only an RMC with status 'A' can set it. -/
theorem msgUpdate_valid (g : GpsData) (m : PyNmeaMsg) :
    (msgUpdate g m).valid =
      (g.valid ||
        (match m with
         | .rmc s _ _ _ _ _ _ => decide (s = "A")
         | _ => false)) := by
  cases m with
  | rmc s la lo tc sog ds ts => exact rmcUpdate_valid g s la lo tc sog ds ts
  | gga alt? ns =>
      simp only [msgUpdate, ggaUpdate, ggaSatsUpd, ggaAltUpd]
      split
      · simp
      · split <;> simp
  | other => simp [msgUpdate]

/-- Dispatching any parsed message other than a coordinate-bearing RMC
leaves the stored coordinates unchanged; an RMC stores them only when
both are non-zero. -/
theorem msgUpdate_coord (g : GpsData) (m : PyNmeaMsg) :
    ((msgUpdate g m).lat = g.lat ∧ (msgUpdate g m).lon = g.lon) ∨
      (∃ la lo, la ≠ 0 ∧ lo ≠ 0 ∧
        (msgUpdate g m).lat = some la ∧ (msgUpdate g m).lon = some lo) := by
  cases m with
  | rmc s la lo tc sog ds ts =>
      simp only [msgUpdate]
      by_cases hc : la ≠ 0 ∧ lo ≠ 0
      · right
        exact ⟨la, lo, hc.1, hc.2, by rw [rmcUpdate_lat, if_pos hc],
          by rw [rmcUpdate_lon, if_pos hc]⟩
      · left
        exact ⟨by rw [rmcUpdate_lat, if_neg hc], by rw [rmcUpdate_lon, if_neg hc]⟩
  | gga alt? ns =>
      left
      simp only [msgUpdate, ggaUpdate, ggaSatsUpd, ggaAltUpd]
      split
      · exact ⟨rfl, rfl⟩
      · split <;> exact ⟨rfl, rfl⟩
  | other => left; exact ⟨rfl, rfl⟩

/-- The fix-type half of the GSA branch, characterised. -/
theorem gsaFix_fix_type (g : GpsData) (l : String) :
    (gsaFix g l).fix_type =
      (if (splitComma l).getD 2 "" = "2" then "2D"
       else if (splitComma l).getD 2 "" = "3" then "3D" else g.fix_type) := by
  unfold gsaFix
  split
  · rfl
  · split <;> rfl

/-- The fix-type half of the GSA branch does not touch `pdop`. -/
theorem gsaFix_pdop (g : GpsData) (l : String) : (gsaFix g l).pdop = g.pdop := by
  obtain ⟨ft, h⟩ := gsaFix_eq g l
  rw [h]

/-- GSA branch result on a 16+-field GSA line with empty field 15. -/
theorem gsaStage_empty15 (g : GpsData) (l : String)
    (h1 : hasSub "GSA" l = true) (h2 : 16 ≤ (splitComma l).length)
    (h3 : (splitComma l).getD 15 "" = "") :
    gsaStage g l = Except.ok (gsaFix { g with pdop := none } l) := by
  unfold gsaStage
  rw [if_pos h1, if_pos h2, if_pos h3]

/-- GSA branch result on a 16+-field GSA line with numeric field 15. -/
theorem gsaStage_num15 (g : GpsData) (l : String) (v : ℚ)
    (h1 : hasSub "GSA" l = true) (h2 : 16 ≤ (splitComma l).length)
    (h3 : (splitComma l).getD 15 "" ≠ "")
    (h4 : parseFloat ((splitComma l).getD 15 "") = some v) :
    gsaStage g l = Except.ok (gsaFix { g with pdop := some v } l) := by
  unfold gsaStage
  rw [if_pos h1, if_pos h2, if_neg h3, h4]

/-- A line that does not start with the sentinel is skipped whole. -/
theorem processLine_not_sentinel (g : GpsData) (l : String) (p : Option PyNmeaMsg)
    (hs : strStarts l "$" = false) : processLine g l p = g := by
  simp [processLine, hs]

/-- A sentinel line without the GSA marker whose parse raised is skipped
whole. -/
theorem processLine_skip_parse (g : GpsData) (l : String)
    (hg : hasSub "GSA" l = false) : processLine g l none = g := by
  unfold processLine
  rw [gsaStage_not_gsa g l hg]
  split <;> rfl

/-- Any line with fewer than 16 comma fields leaves the DOP fields at
their prior values, whatever it parses as. -/
theorem processLine_pdop_fix (g : GpsData) (l : String) (p : Option PyNmeaMsg)
    (h : ¬ 16 ≤ (splitComma l).length) :
    (processLine g l p).pdop = g.pdop ∧
      (processLine g l p).fix_type = g.fix_type := by
  unfold processLine
  by_cases hs : strStarts l "$" = true
  · rw [if_pos hs, gsaStage_short g l h]
    cases p with
    | none => exact ⟨rfl, rfl⟩
    | some m => exact msgUpdate_pdop_fix g m
  · rw [if_neg hs]; exact ⟨rfl, rfl⟩

/-- A GSA-marked 16+-field line whose field 15 is non-empty and
non-numeric is skipped whole (the raise aborts both GSA updates and the
sentence parse). -/
theorem processLine_raise (g : GpsData) (l : String) (p : Option PyNmeaMsg)
    (h1 : hasSub "GSA" l = true) (h2 : 16 ≤ (splitComma l).length)
    (h3 : (splitComma l).getD 15 "" ≠ "")
    (h4 : parseFloat ((splitComma l).getD 15 "") = none) :
    processLine g l p = g := by
  unfold processLine
  by_cases hs : strStarts l "$" = true
  · rw [if_pos hs, gsaStage_raise g l h1 h2 h3 h4]
  · rw [if_neg hs]

/-- Per-line effect on the validity flag: it can only be set, and only by
a sentinel RMC line with status 'A' whose GSA stage did not raise. -/
theorem processLine_valid (g : GpsData) (l : String) (p : Option PyNmeaMsg) :
    (processLine g l p).valid = (g.valid || setsValid l p) := by
  unfold processLine setsValid
  by_cases hs : strStarts l "$" = true
  · rw [if_pos hs, hs]
    rcases gsaStage_shape g l with herr | ⟨pd, ft, hok⟩
    · rw [herr, gsaRaises_of_error herr]
      simp
    · rw [hok, gsaRaises_of_ok hok]
      cases p with
      | none => simp
      | some m =>
          rw [msgUpdate_valid]
          cases m <;> simp
  · have hs' : strStarts l "$" = false := by
      cases hE : strStarts l "$"
      · rfl
      · exact absurd hE hs
    rw [if_neg hs, hs']
    simp

/-- Per-line effect on the stored coordinates: either both are untouched
or both are overwritten with non-zero values. -/
theorem processLine_coord (g : GpsData) (l : String) (p : Option PyNmeaMsg) :
    ((processLine g l p).lat = g.lat ∧ (processLine g l p).lon = g.lon) ∨
      (∃ la lo, la ≠ 0 ∧ lo ≠ 0 ∧
        (processLine g l p).lat = some la ∧ (processLine g l p).lon = some lo) := by
  unfold processLine
  by_cases hs : strStarts l "$" = true
  · rw [if_pos hs]
    rcases gsaStage_shape g l with herr | ⟨pd, ft, hok⟩
    · rw [herr]; left; exact ⟨rfl, rfl⟩
    · rw [hok]
      cases p with
      | none => left; exact ⟨rfl, rfl⟩
      | some m =>
          rcases msgUpdate_coord { g with pdop := pd, fix_type := ft } m with
            ⟨h1, h2⟩ | ⟨la, lo, hla, hlo, h1, h2⟩
          · left; exact ⟨h1, h2⟩
          · right; exact ⟨la, lo, hla, hlo, h1, h2⟩
  · rw [if_neg hs]; left; exact ⟨rfl, rfl⟩

/-- Per-line preservation of coordinate coherence. -/
theorem processLine_coordOk {g : GpsData} (l : String) (p : Option PyNmeaMsg)
    (h : coordOk g) : coordOk (processLine g l p) := by
  rcases processLine_coord g l p with ⟨h1, h2⟩ | ⟨la, lo, hla, hlo, h1, h2⟩
  · unfold coordOk at h ⊢
    rw [h1, h2]; exact h
  · right; exact ⟨la, lo, h1, h2, hla, hlo⟩

/-- Coordinate coherence is preserved by any run of the read loop. -/
theorem foldl_coordOk (lines : List (String × Option PyNmeaMsg)) :
    ∀ g : GpsData, coordOk g →
      coordOk (lines.foldl (fun g lp => processLine g lp.1 lp.2) g) := by
  induction lines with
  | nil => intro g h; simpa using h
  | cons hd tl ih =>
      intro g h
      rw [List.foldl_cons]
      exact ih _ (processLine_coordOk hd.1 hd.2 h)

/-- The validity flag of a whole window run, as a fold. -/
theorem foldl_valid (lines : List (String × Option PyNmeaMsg)) :
    ∀ g : GpsData,
      (lines.foldl (fun g lp => processLine g lp.1 lp.2) g).valid =
        (g.valid || lines.any (fun lp => setsValid lp.1 lp.2)) := by
  induction lines with
  | nil => intro g; simp
  | cons hd tl ih =>
      intro g
      rw [List.foldl_cons, List.any_cons, ih, processLine_valid, Bool.or_assoc]

/-- A rational is a one-decimal value: an integer number of tenths. -/
def tenths (q : ℚ) : Prop := ∃ n : ℤ, q = (n : ℚ) / 10

/-- `round(x, 1)` always produces a one-decimal value. -/
theorem round1_tenths (q : ℚ) : tenths (round1 q) := ⟨pyRoundInt (q * 10), rfl⟩

/-- Zero is a one-decimal value. -/
theorem zero_tenths : tenths 0 := ⟨0, by norm_num⟩

/-- Per-line preservation of the one-decimal shape of course and speed. -/
theorem processLine_tenths {g : GpsData} (l : String) (p : Option PyNmeaMsg)
    (h : tenths g.course ∧ tenths g.speed_m_s) :
    tenths (processLine g l p).course ∧ tenths (processLine g l p).speed_m_s := by
  unfold processLine
  by_cases hs : strStarts l "$" = true
  · rw [if_pos hs]
    rcases gsaStage_shape g l with herr | ⟨pd, ft, hok⟩
    · rw [herr]; exact h
    · rw [hok]
      cases p with
      | none => exact h
      | some m =>
          cases m with
          | rmc s la lo tc sog ds ts =>
              constructor
              · simp only [msgUpdate]
                rw [rmcUpdate_course]
                split
                · exact round1_tenths _
                · exact zero_tenths
              · simp only [msgUpdate]
                rw [rmcUpdate_speed]
                exact round1_tenths _
          | gga alt? ns =>
              simp only [msgUpdate, ggaUpdate, ggaSatsUpd, ggaAltUpd]
              split
              · exact h
              · split <;> exact h
          | other => exact h
  · rw [if_neg hs]; exact h

/-- The one-decimal shape survives any run of the read loop. -/
theorem foldl_tenths (lines : List (String × Option PyNmeaMsg)) :
    ∀ g : GpsData, tenths g.course ∧ tenths g.speed_m_s →
      tenths (lines.foldl (fun g lp => processLine g lp.1 lp.2) g).course ∧
        tenths (lines.foldl (fun g lp => processLine g lp.1 lp.2) g).speed_m_s := by
  induction lines with
  | nil => intro g h; simpa using h
  | cons hd tl ih =>
      intro g h
      rw [List.foldl_cons]
      exact ih _ (processLine_tenths hd.1 hd.2 h)

/-- The untruthy-fix guard fails for an invalid fix or a missing
coordinate. -/
theorem fixOk_false_of (g : GpsData)
    (h : g.valid = false ∨ g.lat = none ∨ g.lon = none) : fixOk g = false := by
  unfold fixOk
  rcases h with h | h | h <;> simp [h, pyTruthy]

/-- The guard also fails when a stored coordinate is exactly zero. -/
theorem fixOk_false_zero (g : GpsData)
    (h : g.lat = some 0 ∨ g.lon = some 0) : fixOk g = false := by
  unfold fixOk
  rcases h with h | h <;> simp [h, pyTruthy]

/-- A cycle whose guard fails emits nothing and leaves the motion state
untouched. -/
theorem eventStep_no_fix (st : MotionState) (g : GpsData)
    (h : fixOk g = false) : eventStep st g = (none, st) := by
  unfold eventStep
  rw [if_neg (by simp [h])]

/-- The very first guarded fix of a run always emits POWER ON (code 1)
and initialises the motion flag from its speed. -/
theorem eventStep_power_on (st : MotionState) (g : GpsData)
    (hv : fixOk g = true) (hp : st.power_on_logged = false) :
    eventStep st g = (some ("POWER ON", some 1),
      ⟨g.speed_m_s, true, decide (0 < g.speed_m_s)⟩) := by
  unfold eventStep eventChoice
  rw [if_pos hv, if_pos hp]
  rfl

/-- From stationary with positive speed: MOVING (code 3), to moving. -/
theorem eventStep_moving (st : MotionState) (g : GpsData)
    (hv : fixOk g = true) (hp : st.power_on_logged = true)
    (hm : st.in_motion = false) (hsp : 0 < g.speed_m_s) :
    eventStep st g = (some ("MOVING", some 3), ⟨g.speed_m_s, true, true⟩) := by
  obtain ⟨ps, pol, im⟩ := st
  subst hp
  subst hm
  unfold eventStep eventChoice
  rw [if_pos hv, if_neg (by simp), if_pos ⟨rfl, hsp⟩]
  rfl

/-- From stationary with zero speed: position report (code 0), stays
stationary. -/
theorem eventStep_stationary_report (st : MotionState) (g : GpsData)
    (hv : fixOk g = true) (hp : st.power_on_logged = true)
    (hm : st.in_motion = false) (hsp : g.speed_m_s = 0) :
    eventStep st g =
      (some ("Position Report", some 0), ⟨g.speed_m_s, true, false⟩) := by
  obtain ⟨ps, pol, im⟩ := st
  subst hp
  subst hm
  unfold eventStep eventChoice
  rw [if_pos hv, if_neg (by simp), if_neg (by simp [hsp]), if_neg (by simp)]
  rfl

/-- From moving with zero speed: STOPPED (code 4), to stationary. -/
theorem eventStep_stopped (st : MotionState) (g : GpsData)
    (hv : fixOk g = true) (hp : st.power_on_logged = true)
    (hm : st.in_motion = true) (hsp : g.speed_m_s = 0) :
    eventStep st g = (some ("STOPPED", some 4), ⟨g.speed_m_s, true, false⟩) := by
  obtain ⟨ps, pol, im⟩ := st
  subst hp
  subst hm
  unfold eventStep eventChoice
  rw [if_pos hv, if_neg (by simp), if_neg (by simp [hsp]), if_pos ⟨rfl, hsp⟩]
  rfl

/-- From moving with positive speed: position report (code 0), stays
moving. -/
theorem eventStep_moving_report (st : MotionState) (g : GpsData)
    (hv : fixOk g = true) (hp : st.power_on_logged = true)
    (hm : st.in_motion = true) (hsp : 0 < g.speed_m_s) :
    eventStep st g =
      (some ("Position Report", some 0), ⟨g.speed_m_s, true, true⟩) := by
  obtain ⟨ps, pol, im⟩ := st
  subst hp
  subst hm
  unfold eventStep eventChoice
  rw [if_pos hv, if_neg (by simp), if_neg (by simp [hsp.ne.symm]),
    if_neg (by simp [hsp.ne.symm])]
  rfl

/-- The classifier never produces the reserved POWER OFF label. -/
theorem eventChoice_not_power_off (st : MotionState) (g : GpsData) :
    (eventChoice st g).1 ≠ "POWER OFF" := by
  unfold eventChoice
  split
  · simp
  · split
    · simp
    · split <;> simp

/-- No emitted event ever carries the reserved POWER OFF code 2. -/
theorem eventStep_no_power_off (st : MotionState) (g : GpsData)
    (e : String × Option ℕ) (h : (eventStep st g).1 = some e) :
    e.2 ≠ some 2 := by
  unfold eventStep at h
  split at h
  · have he : e = ((eventChoice st g).1, EVENT_CODES.lookup (eventChoice st g).1) := by
      injection h with h'
      exact h'.symm
    subst he
    show EVENT_CODES.lookup (eventChoice st g).1 ≠ some 2
    unfold eventChoice
    split
    · show EVENT_CODES.lookup "POWER ON" ≠ some 2
      decide
    · split
      · show EVENT_CODES.lookup "MOVING" ≠ some 2
        decide
      · split
        · show EVENT_CODES.lookup "STOPPED" ≠ some 2
          decide
        · show EVENT_CODES.lookup "Position Report" ≠ some 2
          decide
  · simp at h

/-- `round(0, 1)` is zero. -/
theorem round1_zero : round1 0 = 0 := of_decide_eq_true (by with_unfolding_all rfl)

/-- Python `float('')` raises. -/
theorem parseFloat_empty : parseFloat "" = none := rfl

/-- Claim C1 (amended): `valid = true` does not by itself guarantee that
coordinates are present; the invariant the decoder/aggregator does keep is
that latitude and longitude of every returned ConsolidatedFix are both
absent or both present and non-zero. -/
theorem c1_claim (ts : String) (lines : List (String × Option PyNmeaMsg)) :
    coordOk (parse_gps ts lines) := by
  unfold parse_gps
  exact foldl_coordOk lines (initGpsData ts) (Or.inl ⟨rfl, rfl⟩)

/-- Claim C1 witness: the amended invariant on a concrete window. -/
theorem c1_witness :
    coordOk (parse_gps "T" [("$GPRMC,120000,A,0100.00,N,00200.00,E,,,230394,,",
      some (PyNmeaMsg.rmc "A" 1 2 none none (some "1994-03-23") (some "12:00:00")))]) :=
  c1_claim "T" _

/-- Claim C1 counterexample: a window whose only sentence is an RMC with
status 'A' and empty coordinates yields a ConsolidatedFix with
`valid = true` but both coordinates absent, refuting the claimed
invariant that a true valid flag requires latitude and longitude. -/
theorem c1_counterexample :
    (parse_gps "T" [("$GPRMC,120000,A,,,,,,,230394,,",
        some (PyNmeaMsg.rmc "A" 0 0 none none
          (some "1994-03-23") (some "12:00:00")))]).valid = true ∧
      (parse_gps "T" [("$GPRMC,120000,A,,,,,,,230394,,",
        some (PyNmeaMsg.rmc "A" 0 0 none none
          (some "1994-03-23") (some "12:00:00")))]).lat = none ∧
      (parse_gps "T" [("$GPRMC,120000,A,,,,,,,230394,,",
        some (PyNmeaMsg.rmc "A" 0 0 none none
          (some "1994-03-23") (some "12:00:00")))]).lon = none :=
  of_decide_eq_true (by with_unfolding_all rfl)

/-- Claim C2 (amended): empty numeric fields are zero-defaulted the moment
the sentence is folded into the ConsolidatedFix: an RMC with empty course
and speed stores course 0 and speed 0.0, identical to one reporting them
as zero, and a GGA with empty altitude stores altitude 0.0; the absence
is not preserved past the decode step. -/
theorem c2_claim (g : GpsData) (s : String) (la lo : ℚ)
    (ds ts : Option String) (ns : String) :
    (msgUpdate g (.rmc s la lo none none ds ts)).course = 0 ∧
    (msgUpdate g (.rmc s la lo none none ds ts)).speed_m_s = 0 ∧
    (msgUpdate g (.rmc s la lo (some 0) (some 0) ds ts)).course =
      (msgUpdate g (.rmc s la lo none none ds ts)).course ∧
    (msgUpdate g (.rmc s la lo (some 0) (some 0) ds ts)).speed_m_s =
      (msgUpdate g (.rmc s la lo none none ds ts)).speed_m_s ∧
    (msgUpdate g (.gga none ns)).alt = some 0 := by
  refine ⟨?_, ?_, ?_, ?_, ?_⟩
  · simp only [msgUpdate]
    rw [rmcUpdate_course]
    simp [pyTruthy]
  · simp only [msgUpdate]
    rw [rmcUpdate_speed]
    simp [pyTruthy, round1_zero]
  · simp only [msgUpdate]
    rw [rmcUpdate_course, rmcUpdate_course]
    simp [pyTruthy]
  · simp only [msgUpdate]
    rw [rmcUpdate_speed, rmcUpdate_speed]
    simp [pyTruthy]
  · simp only [msgUpdate, ggaUpdate, ggaSatsUpd, ggaAltUpd]
    split
    · simp [pyTruthy]
    · split <;> simp [pyTruthy]

/-- Claim C2 witness: the zero-defaulting on concrete messages. -/
theorem c2_witness :
    (msgUpdate (initGpsData "T") (.rmc "A" 1 2 none none none none)).course = 0 :=
  (c2_claim (initGpsData "T") "A" 1 2 none none "7").1

/-- Claim C2 counterexample: an RMC whose course field is the empty string
decodes to the literal course 0 in the ConsolidatedFix — not to an
explicit absence value — and is indistinguishable from an RMC reporting
course 0.0. -/
theorem c2_counterexample :
    (parse_gps "T" [("$GPRMC,120000,A,0100.00,N,00200.00,E,,,230394,,",
        some (PyNmeaMsg.rmc "A" 1 2 none none
          (some "1994-03-23") (some "12:00:00")))]).course = 0 ∧
      (parse_gps "T" [("$GPRMC,120000,A,0100.00,N,00200.00,E,0.0,0.0,230394,,",
        some (PyNmeaMsg.rmc "A" 1 2 (some 0) (some 0)
          (some "1994-03-23") (some "12:00:00")))]).course =
      (parse_gps "T" [("$GPRMC,120000,A,0100.00,N,00200.00,E,,,230394,,",
        some (PyNmeaMsg.rmc "A" 1 2 none none
          (some "1994-03-23") (some "12:00:00")))]).course :=
  of_decide_eq_true (by with_unfolding_all rfl)

/-- Claim C3 (amended): the validity flag of a window is true exactly when
some processed line is a sentinel RMC with status 'A' whose GSA stage did
not raise — an RMC with status 'F' neither sets nor clears it, so the
flag latches rather than being overwritten; course and speed, by
contrast, are fully overwritten by each later RMC, independently of the
state built so far. -/
theorem c3_claim (ts : String) (lines : List (String × Option PyNmeaMsg)) :
    ((parse_gps ts lines).valid = lines.any (fun lp => setsValid lp.1 lp.2)) ∧
    (∀ (g g' : GpsData) (s : String) (la lo : ℚ) (tc sog : Option ℚ)
        (ds tsf : Option String),
      (msgUpdate g (.rmc s la lo tc sog ds tsf)).course =
        (msgUpdate g' (.rmc s la lo tc sog ds tsf)).course ∧
      (msgUpdate g (.rmc s la lo tc sog ds tsf)).speed_m_s =
        (msgUpdate g' (.rmc s la lo tc sog ds tsf)).speed_m_s) := by
  constructor
  · unfold parse_gps
    rw [foldl_valid]
    simp [initGpsData]
  · intro g g' s la lo tc sog ds tsf
    constructor
    · simp only [msgUpdate]
      rw [rmcUpdate_course, rmcUpdate_course]
    · simp only [msgUpdate]
      rw [rmcUpdate_speed, rmcUpdate_speed]

/-- Claim C3 witness: the latch equation on a concrete window. -/
theorem c3_witness :
    (parse_gps "T" [("$GPRMC,120000,F,0100.00,N,00200.00,E,,,230394,,",
      some (PyNmeaMsg.rmc "F" 1 2 none none
        (some "1994-03-23") (some "12:00:00")))]).valid =
      [("$GPRMC,120000,F,0100.00,N,00200.00,E,,,230394,,",
        some (PyNmeaMsg.rmc "F" 1 2 none none
          (some "1994-03-23") (some "12:00:00")))].any
        (fun lp => setsValid lp.1 lp.2) :=
  (c3_claim "T" _).1

/-- Claim C3 counterexample: a window that merges an RMC with status 'A'
and then an RMC with status 'F' ends with `valid = true`, refuting the
claim that any status-'F' sentence forces `valid = false` regardless of
the other sentences in the window. -/
theorem c3_counterexample :
    (parse_gps "T"
      [("$GPRMC,120000,A,0101.00,N,00202.00,E,10.0,80.0,230394,,",
        some (PyNmeaMsg.rmc "A" 1 2 (some 80) (some 10)
          (some "1994-03-23") (some "12:00:00"))),
       ("$GPRMC,120001,F,0101.00,N,00202.00,E,10.0,80.0,230394,,",
        some (PyNmeaMsg.rmc "F" 1 2 (some 80) (some 10)
          (some "1994-03-23") (some "12:00:01")))]).valid = true :=
  of_decide_eq_true (by with_unfolding_all rfl)

/-- Claim C4 (confirmed): on valid, geolocated fixes the state machine
follows the specified table — first fix always POWER ON (code 1) with the
motion flag set from its speed; stationary and positive speed gives
MOVING (code 3); stationary and zero speed gives a position report (code
0); moving and zero speed gives STOPPED (code 4); moving and positive
speed gives a position report; POWER OFF (code 2) is never emitted; and
the speed sequence [0, 0, 3.2, 3.2, 0] from the uninitialised start
yields [POWER ON, position report, MOVING, position report, STOPPED]. -/
theorem c4_claim (st : MotionState) (g : GpsData) (hv : fixOk g = true) :
    (st.power_on_logged = false →
        eventStep st g = (some ("POWER ON", some 1),
          ⟨g.speed_m_s, true, decide (0 < g.speed_m_s)⟩)) ∧
    (st.power_on_logged = true → st.in_motion = false → 0 < g.speed_m_s →
        eventStep st g = (some ("MOVING", some 3), ⟨g.speed_m_s, true, true⟩)) ∧
    (st.power_on_logged = true → st.in_motion = false → g.speed_m_s = 0 →
        eventStep st g =
          (some ("Position Report", some 0), ⟨g.speed_m_s, true, false⟩)) ∧
    (st.power_on_logged = true → st.in_motion = true → g.speed_m_s = 0 →
        eventStep st g = (some ("STOPPED", some 4), ⟨g.speed_m_s, true, false⟩)) ∧
    (st.power_on_logged = true → st.in_motion = true → 0 < g.speed_m_s →
        eventStep st g =
          (some ("Position Report", some 0), ⟨g.speed_m_s, true, true⟩)) ∧
    (∀ (st' : MotionState) (g' : GpsData) (e : String × Option ℕ),
        (eventStep st' g').1 = some e → e.2 ≠ some 2) ∧
    (runEvents initMotion [exFix 0, exFix 0, exFix (16/5), exFix (16/5), exFix 0]).1 =
      [some ("POWER ON", some 1), some ("Position Report", some 0),
       some ("MOVING", some 3), some ("Position Report", some 0),
       some ("STOPPED", some 4)] :=
  ⟨fun hp => eventStep_power_on st g hv hp,
    fun hp hm hs => eventStep_moving st g hv hp hm hs,
    fun hp hm hs => eventStep_stationary_report st g hv hp hm hs,
    fun hp hm hs => eventStep_stopped st g hv hp hm hs,
    fun hp hm hs => eventStep_moving_report st g hv hp hm hs,
    fun st' g' e he => eventStep_no_power_off st' g' e he,
    of_decide_eq_true (by with_unfolding_all rfl)⟩

/-- Claim C4 witness: the table applied to a concrete first fix. -/
theorem c4_witness :
    fixOk (exFix 0) = true ∧
      eventStep initMotion (exFix 0) =
        (some ("POWER ON", some 1), ⟨0, true, false⟩) := by
  have hv : fixOk (exFix 0) = true := of_decide_eq_true (by with_unfolding_all rfl)
  refine ⟨hv, ?_⟩
  have h := (c4_claim initMotion (exFix 0) hv).1 rfl
  rw [h]
  exact of_decide_eq_true (by with_unfolding_all rfl)

/-- Claim C5 (confirmed): a fix that is invalid or lacks a coordinate
yields no event and leaves the motion state exactly unchanged. -/
theorem c5_claim (st : MotionState) (g : GpsData)
    (h : g.valid = false ∨ g.lat = none ∨ g.lon = none) :
    eventStep st g = (none, st) :=
  eventStep_no_fix st g (fixOk_false_of g h)

/-- Claim C5 witness: the no-fix pass-through on the fresh fix record. -/
theorem c5_witness :
    ((initGpsData "T").valid = false ∨ (initGpsData "T").lat = none ∨
        (initGpsData "T").lon = none) ∧
      eventStep initMotion (initGpsData "T") = (none, initMotion) :=
  ⟨Or.inl rfl, c5_claim initMotion (initGpsData "T") (Or.inl rfl)⟩

/-- Claim C6 (confirmed): the decode step never propagates an exception —
a line with the wrong start delimiter is skipped whole; a sentinel line
without the GSA marker whose sentence parse fails is skipped whole; any
line with fewer than 16 comma fields leaves fix dimensionality and
positional dilution at their prior values; and a GSA line whose numeric
field is non-numeric is skipped whole. -/
theorem c6_claim :
    (∀ (g : GpsData) (l : String) (p : Option PyNmeaMsg),
        strStarts l "$" = false → processLine g l p = g) ∧
    (∀ (g : GpsData) (l : String),
        hasSub "GSA" l = false → processLine g l none = g) ∧
    (∀ (g : GpsData) (l : String) (p : Option PyNmeaMsg),
        (splitComma l).length < 16 →
          (processLine g l p).pdop = g.pdop ∧
            (processLine g l p).fix_type = g.fix_type) ∧
    (∀ (g : GpsData) (l : String) (p : Option PyNmeaMsg),
        hasSub "GSA" l = true → 16 ≤ (splitComma l).length →
        (splitComma l).getD 15 "" ≠ "" →
        parseFloat ((splitComma l).getD 15 "") = none →
        processLine g l p = g) := by
  refine ⟨processLine_not_sentinel, processLine_skip_parse, ?_, processLine_raise⟩
  intro g l p h
  exact processLine_pdop_fix g l p (by omega)

/-- Claim C6 witness: each tolerated malformation on a concrete line. -/
theorem c6_witness :
    processLine (initGpsData "T") "GPRMC,120000,A" none = initGpsData "T" ∧
    processLine (initGpsData "T") "$GPXXX,1,2" none = initGpsData "T" ∧
    ((processLine (initGpsData "T") "$GPGSA,A,3,1,2" none).pdop =
        (initGpsData "T").pdop ∧
      (processLine (initGpsData "T") "$GPGSA,A,3,1,2" none).fix_type =
        (initGpsData "T").fix_type) ∧
    processLine (initGpsData "T") "$GPGSA,A,3,01,02,03,04,,,,,,,,1.2,x,1.9" none
      = initGpsData "T" :=
  ⟨c6_claim.1 _ _ _ (by decide), c6_claim.2.1 _ _ (by decide),
    c6_claim.2.2.1 _ _ _ (by decide),
    c6_claim.2.2.2 _ _ _ (by decide) (by decide) (by decide) (by decide)⟩

/-- Claim C7 (confirmed): speed decoding multiplies the reported knots by
the fixed factor 0.514444 and rounds to one decimal place, and a 10.0
knot report decodes to exactly 5.1 m/s. -/
theorem c7_claim :
    (∀ (g : GpsData) (s : String) (la lo : ℚ) (tc : Option ℚ)
        (ds tsf : Option String) (q : ℚ),
        (msgUpdate g (.rmc s la lo tc (some q) ds tsf)).speed_m_s =
          round1 (q * knotToMs)) ∧
    knotToMs = 514444 / 1000000 ∧
    (parse_gps "T" [("$GPRMC,120000,A,0100.00,N,00200.00,E,10.0,80.0,230394,,",
        some (PyNmeaMsg.rmc "A" 1 2 (some 80) (some 10)
          (some "1994-03-23") (some "12:00:00")))]).speed_m_s = 51 / 10 := by
  refine ⟨?_, rfl, of_decide_eq_true (by with_unfolding_all rfl)⟩
  intro g s la lo tc ds tsf q
  simp only [msgUpdate]
  rw [rmcUpdate_speed]
  rcases eq_or_ne q 0 with hq | hq <;> simp [pyTruthy, hq]

/-- Claim C8 (confirmed): every feature built from a decoded
ConsolidatedFix carries course and speed truncated toward zero from their
one-decimal values, and its coordinate triple is
(longitude, latitude, altitude), longitude first. -/
theorem c8_claim (ts : String) (lines : List (String × Option PyNmeaMsg))
    (imei : String) (ec : Option ℕ) (et ed : String) :
    (create_aff_feature (parse_gps ts lines) imei ec et ed).properties.cog =
      pyTrunc (parse_gps ts lines).course ∧
    (create_aff_feature (parse_gps ts lines) imei ec et ed).properties.spd =
      pyTrunc (parse_gps ts lines).speed_m_s ∧
    (create_aff_feature (parse_gps ts lines) imei ec et ed).coordinates =
      ((parse_gps ts lines).lon, (parse_gps ts lines).lat,
        (parse_gps ts lines).alt) ∧
    tenths (parse_gps ts lines).course ∧
    tenths (parse_gps ts lines).speed_m_s ∧
    (∀ q : ℚ, 0 ≤ q → pyTrunc q = ⌊q⌋) ∧
    (∀ q : ℚ, q < 0 → pyTrunc q = ⌈q⌉) := by
  have ht := foldl_tenths lines (initGpsData ts) ⟨zero_tenths, zero_tenths⟩
  exact ⟨rfl, rfl, rfl, ht.1, ht.2, fun q hq => if_pos hq,
    fun q hq => if_neg (not_le.mpr hq)⟩

/-- Claim C8 witness: the field contract on a concrete feature, and the
floor form of nonnegative truncation at 5.1. -/
theorem c8_witness :
    (create_aff_feature (parse_gps "T" []) "imei" none "t" "").properties.cog =
      pyTrunc (parse_gps "T" []).course ∧
    (0 : ℚ) ≤ 51 / 10 ∧ pyTrunc (51 / 10 : ℚ) = ⌊(51 / 10 : ℚ)⌋ := by
  have h := c8_claim "T" [] "imei" none "t" ""
  have h2 : (0 : ℚ) ≤ 51 / 10 := of_decide_eq_true (by with_unfolding_all rfl)
  exact ⟨h.1, h2, h.2.2.2.2.2.1 _ h2⟩

/-- Claim C9 (confirmed): an RMC whose reported latitude or longitude is
exactly zero stores neither coordinate, and the event loop's guard treats
a fix whose stored latitude or longitude is zero as "no fix", emitting
nothing and leaving the motion state unchanged. -/
theorem c9_claim :
    (∀ (g : GpsData) (l : String) (s : String) (la lo : ℚ) (tc sog : Option ℚ)
        (ds tsf : Option String), la = 0 ∨ lo = 0 →
        (processLine g l (some (.rmc s la lo tc sog ds tsf))).lat = g.lat ∧
        (processLine g l (some (.rmc s la lo tc sog ds tsf))).lon = g.lon) ∧
    (∀ (st : MotionState) (g : GpsData), g.lat = some 0 ∨ g.lon = some 0 →
        eventStep st g = (none, st)) := by
  constructor
  · intro g l s la lo tc sog ds tsf h
    have hc : ¬(la ≠ 0 ∧ lo ≠ 0) := by
      rcases h with h | h <;> simp [h]
    unfold processLine
    by_cases hs : strStarts l "$" = true
    · rw [if_pos hs]
      rcases gsaStage_shape g l with herr | ⟨pd, ft, hok⟩
      · rw [herr]; exact ⟨rfl, rfl⟩
      · rw [hok]
        simp only [msgUpdate]
        rw [rmcUpdate_lat, rmcUpdate_lon, if_neg hc, if_neg hc]
        exact ⟨rfl, rfl⟩
    · rw [if_neg hs]; exact ⟨rfl, rfl⟩
  · intro st g h
    exact eventStep_no_fix st g (fixOk_false_zero g h)

/-- Claim C9 witness: a zero-latitude RMC stores nothing, and a stored
zero latitude passes through the event step. -/
theorem c9_witness :
    ((0 : ℚ) = 0 ∨ (1 : ℚ) = 0) ∧
    (processLine (initGpsData "T") "$GPRMC,120000,A,,,00100.00,E,,,230394,,"
        (some (PyNmeaMsg.rmc "A" 0 1 none none
          (some "1994-03-23") (some "12:00:00")))).lat = (initGpsData "T").lat ∧
    eventStep initMotion
        { initGpsData "T" with
          valid := true, lat := some 0, lon := some 1 } =
      (none, initMotion) := by
  have h1 := (c9_claim.1 (initGpsData "T")
    "$GPRMC,120000,A,,,00100.00,E,,,230394,," "A" 0 1 none none
    (some "1994-03-23") (some "12:00:00")) (Or.inl rfl)
  have h2 := c9_claim.2 initMotion
    { initGpsData "T" with valid := true, lat := some 0, lon := some 1 }
    (Or.inl rfl)
  exact ⟨Or.inl rfl, h1.1, h2⟩

/-- Claim C10 (amended): a sentinel line containing "GSA" anywhere that
splits into at least 16 comma fields — whatever it parses as, even a
failed parse — updates positional dilution from field 15 (resetting it to
null when the field is empty) and fix dimensionality from field 2,
provided additionally that field 15 is empty or numeric; a non-numeric
field 15 raises first and aborts both updates. -/
theorem c10_claim (g : GpsData) (l : String) (p : Option PyNmeaMsg)
    (hs : strStarts l "$" = true) (hg : hasSub "GSA" l = true)
    (hlen : 16 ≤ (splitComma l).length) :
    ((splitComma l).getD 15 "" = "" → (processLine g l p).pdop = none) ∧
    (∀ v : ℚ, parseFloat ((splitComma l).getD 15 "") = some v →
        (processLine g l p).pdop = some v) ∧
    (((splitComma l).getD 15 "" = "" ∨
        (parseFloat ((splitComma l).getD 15 "")).isSome = true) →
      (processLine g l p).fix_type =
        (if (splitComma l).getD 2 "" = "2" then "2D"
         else if (splitComma l).getD 2 "" = "3" then "3D" else g.fix_type)) := by
  refine ⟨?_, ?_, ?_⟩
  · intro h15
    unfold processLine
    rw [if_pos hs, gsaStage_empty15 g l hg hlen h15]
    cases p with
    | none =>
        show (gsaFix { g with pdop := none } l).pdop = none
        rw [gsaFix_pdop]
    | some m =>
        show (msgUpdate (gsaFix { g with pdop := none } l) m).pdop = none
        rw [(msgUpdate_pdop_fix _ m).1, gsaFix_pdop]
  · intro v hv
    have h15 : (splitComma l).getD 15 "" ≠ "" := by
      intro h
      rw [h, parseFloat_empty] at hv
      exact Option.noConfusion hv
    unfold processLine
    rw [if_pos hs, gsaStage_num15 g l v hg hlen h15 hv]
    cases p with
    | none =>
        show (gsaFix { g with pdop := some v } l).pdop = some v
        rw [gsaFix_pdop]
    | some m =>
        show (msgUpdate (gsaFix { g with pdop := some v } l) m).pdop = some v
        rw [(msgUpdate_pdop_fix _ m).1, gsaFix_pdop]
  · intro h15
    rcases h15 with h15 | h15
    · unfold processLine
      rw [if_pos hs, gsaStage_empty15 g l hg hlen h15]
      cases p with
      | none =>
          show (gsaFix { g with pdop := none } l).fix_type = _
          rw [gsaFix_fix_type]
      | some m =>
          show (msgUpdate (gsaFix { g with pdop := none } l) m).fix_type = _
          rw [(msgUpdate_pdop_fix _ m).2, gsaFix_fix_type]
    · obtain ⟨v, hv⟩ := Option.isSome_iff_exists.mp h15
      have hne : (splitComma l).getD 15 "" ≠ "" := by
        intro h
        rw [h, parseFloat_empty] at hv
        exact Option.noConfusion hv
      unfold processLine
      rw [if_pos hs, gsaStage_num15 g l v hg hlen hne hv]
      cases p with
      | none =>
          show (gsaFix { g with pdop := some v } l).fix_type = _
          rw [gsaFix_fix_type]
      | some m =>
          show (msgUpdate (gsaFix { g with pdop := some v } l) m).fix_type = _
          rw [(msgUpdate_pdop_fix _ m).2, gsaFix_fix_type]

/-- Claim C10 witness: both updates on a concrete well-formed GSA line
whose sentence parse failed. -/
theorem c10_witness :
    (processLine (initGpsData "T") "$GPGSA,A,3,01,02,03,04,,,,,,,,1.2,2.5,1.9"
        none).pdop = some (5 / 2) ∧
      (processLine (initGpsData "T") "$GPGSA,A,3,01,02,03,04,,,,,,,,1.2,2.5,1.9"
        none).fix_type = "3D" := by
  have h := c10_claim (initGpsData "T")
    "$GPGSA,A,3,01,02,03,04,,,,,,,,1.2,2.5,1.9" none
    (by decide) (by decide) (by decide)
  have hv : parseFloat
      ((splitComma "$GPGSA,A,3,01,02,03,04,,,,,,,,1.2,2.5,1.9").getD 15 "")
      = some (5 / 2) := of_decide_eq_true (by with_unfolding_all rfl)
  constructor
  · exact h.2.1 (5 / 2) hv
  · have h3 := h.2.2 (Or.inr (by rw [hv]; rfl))
    rw [h3]
    exact of_decide_eq_true (by with_unfolding_all rfl)

/-- Claim C10 counterexample: a sentinel GSA-marked line with 17 comma
fields, field 2 equal to '3' and a non-numeric field 15 leaves fix
dimensionality (and dilution) untouched, refuting the claim that 16+
fields suffice for the updates. -/
theorem c10_counterexample :
    strStarts "$GPGSA,A,3,01,02,03,04,,,,,,,,1.2,x,1.9" "$" = true ∧
    hasSub "GSA" "$GPGSA,A,3,01,02,03,04,,,,,,,,1.2,x,1.9" = true ∧
    16 ≤ (splitComma "$GPGSA,A,3,01,02,03,04,,,,,,,,1.2,x,1.9").length ∧
    (splitComma "$GPGSA,A,3,01,02,03,04,,,,,,,,1.2,x,1.9").getD 2 "" = "3" ∧
    (processLine (initGpsData "T") "$GPGSA,A,3,01,02,03,04,,,,,,,,1.2,x,1.9"
        none).fix_type = "Invalid" ∧
    (processLine (initGpsData "T") "$GPGSA,A,3,01,02,03,04,,,,,,,,1.2,x,1.9"
        none).pdop = none :=
  of_decide_eq_true (by with_unfolding_all rfl)
